import Mathlib

/-!
Shallow embedding of `skills/render-workflows/assets/python-template/main.py`.

The Python module constructs one `Workflows` application object, then registers
four functions as tasks: `ping`, `hello`, `square`, and `sum_squares`.  Python
integers are unbounded, so they are embedded as `Int`; Python strings as
`String`.  The `asyncio.gather` fan-out in `sum_squares` is embedded with an
explicit completion-order parameter (`gather2`), and a traced variant
(`squareT` / `sum_squaresT`) records each sub-invocation of the squaring task.
Side effects that may fail (the logger call in `hello`, the sub-task calls in
`sum_squares`) are embedded in `Except` to reason about error propagation.
-/

namespace RenderTemplate

/-- Embedding of `render_sdk.Retry(max_retries=..., wait_duration_ms=..., backoff_scaling=...)`.
The Python `backoff_scaling` is a float literal `2.0`; it is embedded as a rational. -/
structure Retry where
  max_retries : Nat
  wait_duration_ms : Nat
  backoff_scaling : Rat
  deriving Repr, DecidableEq

/-- Embedding of the configuration surface of the `render_sdk.Workflows` application object. -/
structure Workflows where
  default_retry : Retry
  default_timeout : Nat
  default_plan : String
  auto_start : Bool
  deriving Repr, DecidableEq

/-- Embedding of the module-level `app = Workflows(...)` construction in `main.py`. -/
def app : Workflows :=
  { default_retry := { max_retries := 3, wait_duration_ms := 1000, backoff_scaling := 2 }
    default_timeout := 300
    default_plan := "standard"
    auto_start := true }

/-- Embedding of the task body `def ping() -> str: return "pong"` (zero arguments). -/
def ping (_ : Unit) : String := "pong"

/-- Embedding of the task body `def hello(name: str) -> str`, which logs and then
returns the f-string `f"Hello, {name}!"`. The logging call has no effect on the
returned value; its failure behaviour is modelled separately by `helloE`. -/
def hello (name : String) : String := "Hello, " ++ name ++ "!"

/-- Embedding of the task body `def square(a: int) -> int: return a * a`. -/
def square (a : Int) : Int := a * a

/-- Embedding of `asyncio.gather` on two sub-tasks.  The boolean `order` says
which sub-task completes first; regardless of completion order, `gather`
places each result at the position of its awaitable in the argument list. -/
def gather2 (order : Bool) (t1 t2 : Unit → Int) : Int × Int :=
  if order then
    let r1 := t1 ()
    let r2 := t2 ()
    (r1, r2)
  else
    let r2 := t2 ()
    let r1 := t1 ()
    (r1, r2)

/-- Embedding of the task body of `sum_squares`, parameterised by the completion
order of the two sub-tasks: `result1, result2 = await asyncio.gather(square(a), square(b))`
followed by `return result1 + result2`. -/
def sum_squaresSched (order : Bool) (a b : Int) : Int :=
  let p := gather2 order (fun _ => square a) (fun _ => square b)
  p.1 + p.2

/-- Embedding of `sum_squares(a, b)` as invoked (any completion order gives the
same value; see `sum_squaresSched`). -/
def sum_squares (a b : Int) : Int := sum_squaresSched true a b

/-- Traced embedding of a sub-task invocation of `square`: records the argument
of the invocation alongside the result. -/
def squareT (a : Int) : List Int × Int := ([a], a * a)

/-- Traced embedding of the body of `sum_squares`: the two sub-invocations issued
by `asyncio.gather(square(a), square(b))` are recorded in argument order, and the
results are summed in argument order. -/
def sum_squaresT (a b : Int) : List Int × Int :=
  let c1 := squareT a
  let c2 := squareT b
  (c1.1 ++ c2.1, c1.2 + c2.2)

/-- Embedding of the body of `hello` with the `logger.info` call made explicit as a
fallible effect: the body performs `log ("Greeting " ++ name)` and, if that
returns, produces the greeting.  There is no `try`/`except` in the body. -/
def helloE {ε : Type} (log : String → Except ε Unit) (name : String) : Except ε String := do
  log ("Greeting " ++ name)
  pure ("Hello, " ++ name ++ "!")

/-- Embedding of the body of `sum_squares` with the sub-task invocations made
explicit as fallible effects: the body awaits both results of
`asyncio.gather(square(a), square(b))` and, if both resolve, sums them.
There is no `try`/`except` in the body, so a failed sub-task propagates. -/
def sum_squaresE {ε : Type} (sq : Int → Except ε Int) (a b : Int) : Except ε Int := do
  let r1 ← sq a
  let r2 ← sq b
  pure (r1 + r2)

/-- Embedding of the body of `ping` as a fallible computation: the body is a single
`return` of a literal and contains no handler and no fallible operation. -/
def pingE (ε : Type) : Except ε String := pure "pong"

/-- Embedding of the body of `square` as a fallible computation: the body is a single
`return a * a` on unbounded integers and contains no handler and no fallible
operation. -/
def squareE (ε : Type) (a : Int) : Except ε Int := pure (a * a)

/-- Top-level effects of the module, in source order: one `Workflows(...)`
construction, then four `@app.task` registrations. -/
inductive ModuleEvent where
  | constructApp (cfg : Workflows)
  | registerTask (name : String)
  deriving Repr, DecidableEq

/-- The module top level of `main.py`, in source order. -/
def moduleEvents : List ModuleEvent :=
  [ ModuleEvent.constructApp app
  , ModuleEvent.registerTask "ping"
  , ModuleEvent.registerTask "hello"
  , ModuleEvent.registerTask "square"
  , ModuleEvent.registerTask "sum_squares" ]

/-- Predicate picking out application constructions among module events. -/
def isConstruct : ModuleEvent → Bool
  | ModuleEvent.constructApp _ => true
  | ModuleEvent.registerTask _ => false

/-- Name extraction for registration events. -/
def registeredName : ModuleEvent → Option String
  | ModuleEvent.constructApp _ => none
  | ModuleEvent.registerTask n => some n

/-- A call to one of the four registered tasks, with its arguments. -/
inductive TaskCall where
  | ping
  | hello (name : String)
  | square (a : Int)
  | sum_squares (a b : Int)
  deriving Repr

/-- Result value of a task call (the tasks return strings or integers). -/
inductive Value where
  | str (s : String)
  | int (i : Int)
  deriving Repr, DecidableEq

/-- Invocation of a task against the application object.  The task bodies in
`main.py` never reference `app`, so the state component is threaded through
untouched; the returned value is the body's return value. -/
def runTask (s : Workflows) : TaskCall → Workflows × Value
  | TaskCall.ping => (s, Value.str (ping ()))
  | TaskCall.hello name => (s, Value.str (hello name))
  | TaskCall.square a => (s, Value.int (square a))
  | TaskCall.sum_squares a b => (s, Value.int (sum_squares a b))

end RenderTemplate

namespace RenderTemplate

/-- C1: for every pair of integers (a, b), `sum_squares(a, b)` issues exactly two
sub-invocations of the squaring task, with arguments a then b in argument order,
and returns the sum of their results in argument order, equal to a*a + b*b;
in particular `sum_squares(3, 4)` returns 25. -/
theorem sum_squares_fanout (a b : Int) :
    (sum_squaresT a b).1 = [a, b] ∧
    (sum_squaresT a b).1.length = 2 ∧
    (sum_squaresT a b).2 = square a + square b ∧
    sum_squares a b = square a + square b ∧
    sum_squares a b = a * a + b * b ∧
    sum_squares 3 4 = 25 := by
  refine ⟨?_, ?_, ?_, ?_, ?_, ?_⟩
  · rfl
  · rfl
  · rfl
  · rfl
  · simp [sum_squares, sum_squaresSched, gather2, square]
  · decide

/-- C2: for every integer a, the squaring task returns a*a; in particular
`square(5)` returns 25. -/
theorem square_correct (a : Int) :
    square a = a * a ∧ square 5 = 25 := ⟨rfl, by decide⟩

/-- C3: the probe task `ping` takes no arguments and always returns the literal
string "pong": it is constant over its (unit) input. -/
theorem ping_constant :
    (∀ u : Unit, ping u = "pong") ∧ (∀ u v : Unit, ping u = ping v) :=
  ⟨fun _ => rfl, fun _ _ => rfl⟩

/-- C4: for every string name, the greeter task returns "Hello, " ++ name ++ "!";
in particular `hello("world")` returns "Hello, world!". -/
theorem hello_correct (name : String) :
    hello name = "Hello, " ++ name ++ "!" ∧ hello "world" = "Hello, world!" :=
  ⟨rfl, rfl⟩

/-- C5: no task body in the file contains error handling.  The bodies of `ping`
and `square` contain no fallible operation and no handler; when the logging
effect inside `hello` raises, the exception propagates unchanged; when either
sub-task invocation inside `sum_squares` raises, the exception propagates
unchanged, with no task catching or transforming it. -/
theorem tasks_propagate_errors {ε : Type} (e : ε) :
    (∀ err : ε, pingE ε ≠ Except.error err) ∧
    (∀ (a : Int) (err : ε), squareE ε a ≠ Except.error err) ∧
    (∀ (log : String → Except ε Unit) (name : String),
      log ("Greeting " ++ name) = Except.error e → helloE log name = Except.error e) ∧
    (∀ (sq : Int → Except ε Int) (a b : Int),
      sq a = Except.error e → sum_squaresE sq a b = Except.error e) ∧
    (∀ (sq : Int → Except ε Int) (a b : Int) (v : Int),
      sq a = Except.ok v → sq b = Except.error e → sum_squaresE sq a b = Except.error e) := by
  refine ⟨?_, ?_, ?_, ?_, ?_⟩
  · intro err h
    cases h
  · intro a err h
    cases h
  · intro log name h
    simp [helloE, h, Bind.bind, Except.bind]
  · intro sq a b h
    simp [sum_squaresE, h, Bind.bind, Except.bind]
  · intro sq a b v h1 h2
    simp [sum_squaresE, h1, h2, Bind.bind, Except.bind]

/-- Witness for C5 at concrete inputs: a logger that fails with "boom" makes
`hello` return exactly that error, and a squaring sub-task that fails at its
second invocation makes `sum_squares` return exactly that error. -/
theorem tasks_propagate_errors_witness :
    helloE (fun _ => Except.error "boom") "x" = Except.error "boom" ∧
    sum_squaresE (fun _ => Except.error "boom") 3 4 = Except.error "boom" ∧
    sum_squaresE (fun n => if n = 3 then Except.ok 9 else Except.error "boom") 3 4 =
      Except.error "boom" :=
  ⟨(tasks_propagate_errors "boom").2.2.1 (fun _ => Except.error "boom") "x" rfl,
   (tasks_propagate_errors "boom").2.2.2.1 (fun _ => Except.error "boom") 3 4 rfl,
   (tasks_propagate_errors "boom").2.2.2.2
     (fun n => if n = 3 then Except.ok 9 else Except.error "boom") 3 4 9 rfl rfl⟩

/-- C6: the value of `sum_squares(a, b)` does not depend on which of the two
sub-tasks completes first: for every completion order the join yields the
first result plus the second result in argument order, hence the same value. -/
theorem sum_squares_deterministic (o1 o2 : Bool) (a b : Int) :
    sum_squaresSched o1 a b = sum_squaresSched o2 a b ∧
    sum_squaresSched o1 a b = square a + square b := by
  cases o1 <;> cases o2 <;> exact ⟨rfl, rfl⟩

/-- C7: the module constructs exactly one application object, with retry policy
(max retries 3, wait 1000 ms, backoff scaling 2), default timeout 300, default
plan "standard" and auto-start enabled, and registers exactly the four tasks
ping, hello, square, sum_squares via the registration decorator, in that order. -/
theorem module_shape :
    (moduleEvents.filter (fun ev => isConstruct ev)).length = 1 ∧
    moduleEvents.filterMap registeredName = ["ping", "hello", "square", "sum_squares"] ∧
    (moduleEvents.filterMap registeredName).length = 4 ∧
    moduleEvents.head? = some (ModuleEvent.constructApp app) ∧
    app.default_retry.max_retries = 3 ∧
    app.default_retry.wait_duration_ms = 1000 ∧
    app.default_retry.backoff_scaling = 2 ∧
    app.default_timeout = 300 ∧
    app.default_plan = "standard" ∧
    app.auto_start = true := by
  refine ⟨rfl, rfl, rfl, rfl, rfl, rfl, ?_, rfl, rfl, rfl⟩
  decide

/-- C8: the composed task is commutative in its arguments: for every pair of
integers (a, b), `sum_squares(a, b) = sum_squares(b, a)`. -/
theorem sum_squares_comm (a b : Int) :
    sum_squares a b = sum_squares b a := by
  simp [sum_squares, sum_squaresSched, gather2, square]
  ring

/-- C9: the squaring task computes the exact mathematical square on unbounded
integers: `square(a) = a * a` with no wraparound, `square(-a) = square(a)`,
and `square(a)` is non-negative for every integer a. -/
theorem square_exact (a : Int) :
    square a = a * a ∧ square (-a) = square a ∧ 0 ≤ square a := by
  refine ⟨rfl, ?_, ?_⟩
  · simp [square]
  · exact mul_self_nonneg a

/-- C10: invoking any of the four tasks, on any input, leaves the application
object unchanged: the retry policy, default timeout, default plan and
auto-start flag are identical before and after the call. -/
theorem tasks_preserve_app (s : Workflows) (c : TaskCall) :
    (runTask s c).1 = s ∧
    (runTask s c).1.default_retry.max_retries = s.default_retry.max_retries ∧
    (runTask s c).1.default_retry.wait_duration_ms = s.default_retry.wait_duration_ms ∧
    (runTask s c).1.default_retry.backoff_scaling = s.default_retry.backoff_scaling ∧
    (runTask s c).1.default_timeout = s.default_timeout ∧
    (runTask s c).1.default_plan = s.default_plan ∧
    (runTask s c).1.auto_start = s.auto_start := by
  cases c <;> exact ⟨rfl, rfl, rfl, rfl, rfl, rfl, rfl⟩

end RenderTemplate
